import Mathlib

/-!
# Verification of the `magic_feishu_bots` notification forwarder

Shallow embedding of the repository's two Python source files
(`latest_paper_bot.py` and `feishubot_demo.py`) and proofs about them.

Bytes are modelled as `Nat` values below 256 (a Python `bytes` object is a
`List Nat`); 32-bit machine words are `Nat` with explicit `% 2 ^ 32`
reductions.  Timezone-aware UTC datetimes are modelled as `Int` instants
(seconds); the `tzinfo is None → replace UTC` normalisation in
`get_new_notifications` is the identity on instants in this model.
-/

/-! ## SHA-256, HMAC and base64 (the Python `hashlib` / `hmac` / `base64` calls) -/

/-- The modulus `2 ^ 32` for 32-bit words. -/
def w32 : Nat := 4294967296

/-- Rotate right by `n` of a 32-bit word `x < 2 ^ 32`. -/
def rotr (n x : Nat) : Nat := ((x >>> n) ||| (x <<< (32 - n))) % w32

/-- SHA-256 `Ch(x, y, z) = (x ∧ y) ⊕ (¬x ∧ z)` on 32-bit words. -/
def shaCh (x y z : Nat) : Nat :=
  Nat.xor (Nat.land x y) (Nat.land (Nat.xor x 4294967295) z)

/-- SHA-256 `Maj(x, y, z) = (x ∧ y) ⊕ (x ∧ z) ⊕ (y ∧ z)`. -/
def shaMaj (x y z : Nat) : Nat :=
  Nat.xor (Nat.xor (Nat.land x y) (Nat.land x z)) (Nat.land y z)

/-- SHA-256 `Σ₀`. -/
def bigSigma0 (x : Nat) : Nat := Nat.xor (Nat.xor (rotr 2 x) (rotr 13 x)) (rotr 22 x)

/-- SHA-256 `Σ₁`. -/
def bigSigma1 (x : Nat) : Nat := Nat.xor (Nat.xor (rotr 6 x) (rotr 11 x)) (rotr 25 x)

/-- SHA-256 `σ₀`. -/
def smallSigma0 (x : Nat) : Nat := Nat.xor (Nat.xor (rotr 7 x) (rotr 18 x)) (x >>> 3)

/-- SHA-256 `σ₁`. -/
def smallSigma1 (x : Nat) : Nat := Nat.xor (Nat.xor (rotr 17 x) (rotr 19 x)) (x >>> 10)

/-- The 64 SHA-256 round constants. -/
def sha256K : List Nat :=
  [1116352408, 1899447441, 3049323471, 3921009573, 961987163, 1508970993, 2453635748, 2870763221,
   3624381080, 310598401, 607225278, 1426881987, 1925078388, 2162078206, 2614888103, 3248222580,
   3835390401, 4022224774, 264347078, 604807628, 770255983, 1249150122, 1555081692, 1996064986,
   2554220882, 2821834349, 2952996808, 3210313671, 3336571891, 3584528711, 113926993, 338241895,
   666307205, 773529912, 1294757372, 1396182291, 1695183700, 1986661051, 2177026350, 2456956037,
   2730485921, 2820302411, 3259730800, 3345764771, 3516065817, 3600352804, 4094571909, 275423344,
   430227734, 506948616, 659060556, 883997877, 958139571, 1322822218, 1537002063, 1747873779,
   1955562222, 2024104815, 2227730452, 2361852424, 2428436474, 2756734187, 3204031479, 3329325298]

/-- The SHA-256 initial hash value. -/
def sha256H0 : List Nat :=
  [1779033703, 3144134277, 1013904242, 2773480762, 1359893119, 2600822924, 528734635, 1541459225]

/-- Big-endian byte string: `k` bytes of `n`, most significant first. -/
def natToBytesBE : Nat → Nat → List Nat
  | 0, _ => []
  | Nat.succ k, n => natToBytesBE k (n / 256) ++ [n % 256]

/-- SHA-256 padding: append `128`, zeros to 56 mod 64, then the 64-bit bit length. -/
def padMessage (msg : List Nat) : List Nat :=
  let l := msg.length
  let zeros := (119 - l % 64) % 64
  msg ++ [128] ++ List.replicate zeros 0 ++ natToBytesBE 8 (8 * l)

/-- Group bytes into big-endian 32-bit words. -/
def bytesToWords : List Nat → List Nat
  | a :: b :: c :: d :: rest => (((a * 256 + b) * 256 + c) * 256 + d) :: bytesToWords rest
  | _ => []

/-- Split a word list into 16-word blocks (the input length is a multiple of 16). -/
def chunkWords : List Nat → List (List Nat)
  | a :: b :: c :: d :: e :: f :: g :: h :: i :: j :: k :: l :: m :: n :: o :: p :: rest =>
      [a, b, c, d, e, f, g, h, i, j, k, l, m, n, o, p] :: chunkWords rest
  | _ => []

/-- Extend a 16-word block by `k` further scheduled words. -/
def extendSchedule : List Nat → Nat → List Nat
  | ws, 0 => ws
  | ws, Nat.succ k =>
    let n := ws.length
    let w := (smallSigma1 (ws.getD (n - 2) 0) + ws.getD (n - 7) 0 +
              smallSigma0 (ws.getD (n - 15) 0) + ws.getD (n - 16) 0) % w32
    extendSchedule (ws ++ [w]) k

/-- One SHA-256 round on the eight-word working state. -/
def sha256Round (kw : Nat × Nat) : List Nat → List Nat
  | [a, b, c, d, e, f, g, h] =>
    let t1 := (h + bigSigma1 e + shaCh e f g + kw.1 + kw.2) % w32
    let t2 := (bigSigma0 a + shaMaj a b c) % w32
    [(t1 + t2) % w32, a, b, c, (d + t1) % w32, e, f, g]
  | st => st

/-- Compress one 16-word block into the running hash. -/
def compressBlock (h : List Nat) (block : List Nat) : List Nat :=
  let ws := extendSchedule block 48
  let h2 := (List.zip sha256K ws).foldl (fun st kw => sha256Round kw st) h
  (List.zip h h2).map (fun p => (p.1 + p.2) % w32)

/-- SHA-256 of a byte string, as 32 bytes. -/
def sha256 (msg : List Nat) : List Nat :=
  let words := (chunkWords (bytesToWords (padMessage msg))).foldl compressBlock sha256H0
  words.foldr (fun w acc => natToBytesBE 4 w ++ acc) []

/-- HMAC-SHA256 with the given key and message bytes (block size 64). -/
def hmacSha256 (key msg : List Nat) : List Nat :=
  let k0 := if 64 < key.length then sha256 key else key
  let kp := k0 ++ List.replicate (64 - k0.length) 0
  let ipad := kp.map (fun b => Nat.xor b 54)
  let opad := kp.map (fun b => Nat.xor b 92)
  sha256 (opad ++ sha256 (ipad ++ msg))

/-- ASCII code of the base64 alphabet character at index `n < 64`. -/
def b64Code (n : Nat) : Nat :=
  if n < 26 then 65 + n
  else if n < 52 then 97 + (n - 26)
  else if n < 62 then 48 + (n - 52)
  else if n = 62 then 43 else 47

/-- Base64-encode a byte string into its character list, with `=` padding. -/
def b64Chars : List Nat → List Char
  | a :: b :: c :: rest =>
    let n := (a * 256 + b) * 256 + c
    Char.ofNat (b64Code (n / 262144)) :: Char.ofNat (b64Code (n / 4096 % 64)) ::
      Char.ofNat (b64Code (n / 64 % 64)) :: Char.ofNat (b64Code (n % 64)) :: b64Chars rest
  | [a, b] =>
    let n := a * 1024 + b * 4
    [Char.ofNat (b64Code (n / 4096)), Char.ofNat (b64Code (n / 64 % 64)),
     Char.ofNat (b64Code (n % 64)), Char.ofNat 61]
  | [a] =>
    let n := a * 16
    [Char.ofNat (b64Code (n / 64)), Char.ofNat (b64Code (n % 64)), Char.ofNat 61, Char.ofNat 61]
  | [] => []

/-- Base64-encode a byte string, as Python `base64.b64encode(..).decode("utf-8")`. -/
def base64Encode (bs : List Nat) : String := String.mk (b64Chars bs)

/-- Accumulator/fuel worker for `natDigits`; `fuel ≥ number of digits` always
holds at the call site, so the fuel-exhausted branch is never reached. -/
def natDigitsGo : Nat → Nat → List Nat → List Nat
  | 0, n, acc => n :: acc
  | Nat.succ fuel, n, acc =>
    if n < 10 then n :: acc else natDigitsGo fuel (n / 10) (n % 10 :: acc)

/-- Decimal digits of `n`, most significant first. -/
def natDigits (n : Nat) : List Nat := natDigitsGo n n []

/-- UTF-8 bytes of the decimal string of `n` (all characters are ASCII digits). -/
def decimalBytes (n : Nat) : List Nat := (natDigits n).map (fun d => d + 48)

/-- The decimal string of `n`, as Python `str(n)` for `n ≥ 0`. -/
def natStr (n : Nat) : String := String.mk ((natDigits n).map (fun d => Char.ofNat (d + 48)))

/-! ## JSON values and Python dict semantics -/

/-- A JSON-like value, the type of Python dict values in the payloads. -/
inductive JVal where
  | jstr (s : String)
  | jint (n : Int)
  | jbool (b : Bool)
  | jobj (fields : List (String × JVal))
  | jarr (elems : List JVal)

/-- A Python dict with string keys, as an association list in insertion order. -/
abbrev Payload := List (String × JVal)

/-- Set key `k` to `v`: replace the value at the first occurrence of `k`,
or append `(k, v)` when `k` is absent (Python dict assignment). -/
def setKey : Payload → String → JVal → Payload
  | [], k, v => [(k, v)]
  | (k1, v1) :: rest, k, v =>
    if k1 = k then (k, v) :: rest else (k1, v1) :: setKey rest k v

/-- Python `d.update(u)`: set each key of `u` in `d`, in order. -/
def dictUpdate (d : Payload) (u : Payload) : Payload :=
  u.foldl (fun acc kv => setKey acc kv.1 kv.2) d

/-- Python `k in d`. -/
def hasKey : Payload → String → Bool
  | [], _ => false
  | (k1, _) :: rest, k => k1 == k || hasKey rest k

/-- Python `d.get(k)`: the value at the first occurrence of `k`, if present. -/
def getKey : Payload → String → Option JVal
  | [], _ => none
  | (k1, v1) :: rest, k => if k1 = k then some v1 else getKey rest k

/-! ## `FeishuRobotSender` (identical in both source files except where noted)

The sender's configured `secret` is modelled as the UTF-8 bytes of the secret
string, `none` when the constructor received `None`; the wall clock read
`int(time.time())` is passed in as `now`. -/

/-- Python `FeishuRobotSender._generate_sign`.  `if not self.secret` is true
both for `None` and for an empty secret string.  `string_to_sign` is
`f"{timestamp}\n{self.secret}".encode("utf-8")`; the `hmac.new` call passes no
`msg` argument, so the HMAC data is the empty byte string. -/
def generate_sign (secret : Option (List Nat)) (now : Nat) : Payload :=
  match secret with
  | none => []
  | some s =>
    if s = [] then []
    else
      let string_to_sign := decimalBytes now ++ [10] ++ s
      let hmac_code := hmacSha256 string_to_sign []
      [("timestamp", JVal.jstr (natStr now)), ("sign", JVal.jstr (base64Encode hmac_code))]

/-- Outcome of the `requests.post` call inside `_send_message`:
either the post itself raised a `requests.RequestException` (`exn`, with
`desc = str(e)`), or a response arrived (`resp`) with final HTTP `status`,
the JSON parse of the body (`none` when the body is not valid JSON, in which
case `response.json()` raises `requests.exceptions.JSONDecodeError`, a
`RequestException` subclass in the `requests` versions this code targets,
described by `jsonDesc`), and `httpDesc`, the `str` of the `HTTPError` that
`raise_for_status` raises when the status is 4xx/5xx. -/
inductive Transport where
  | exn (desc : String)
  | resp (status : Nat) (body : Option JVal) (httpDesc jsonDesc : String)

/-- Return value of `_send_message`: the parsed JSON response body on success,
or the dict `{"error": ..., "payload": ...}` built in the `except` branch. -/
inductive SendResult where
  | ok (body : JVal)
  | fail (error : String) (payload : Payload)

/-- The body that `_send_message` posts: the caller's payload dict after
`payload.update(sign_params)`. -/
def sentBody (secret : Option (List Nat)) (now : Nat) (payload : Payload) : Payload :=
  dictUpdate payload (generate_sign secret now)

/-- Python `FeishuRobotSender._send_message`.  Returns the result paired with
the final state of the caller's payload dict (`payload.update` mutates it in
place, so the caller observes the updated dict after the call).
`requests.Response.raise_for_status` raises `HTTPError` exactly for statuses
in `[400, 600)`; every raised `RequestException` is caught and turned into the
`fail` record, so the function returns in all cases. -/
def send_message (secret : Option (List Nat)) (now : Nat) (payload : Payload)
    (t : Transport) : SendResult × Payload :=
  let p := sentBody secret now payload
  match t with
  | .exn d => (.fail d p, p)
  | .resp status body httpDesc jsonDesc =>
    if 400 ≤ status ∧ status < 600 then (.fail httpDesc p, p)
    else
      match body with
      | some j => (.ok j, p)
      | none => (.fail jsonDesc p, p)

/-- The mention token `<at user_id="USER_ID"></at>`. -/
def atToken (user_id : String) : String := "<at user_id=\"" ++ user_id ++ "\"></at>"

/-- The text composed by `feishubot_demo.FeishuRobotSender.send_text_message`:
`if at_users:` (false for `None` and for an empty list) prepends the
space-joined per-user tokens and a space; then `if at_all:` prepends the
all-mention token and a space. -/
def composeText (text : String) (at_users : Option (List String)) (at_all : Bool) : String :=
  let t1 :=
    match at_users with
    | none => text
    | some users =>
      if users.isEmpty then text
      else String.intercalate " " (users.map atToken) ++ " " ++ text
  if at_all then "<at user_id=\"all\"></at> " ++ t1 else t1

/-- Python `feishubot_demo.FeishuRobotSender.send_text_message`. -/
def send_text_message (secret : Option (List Nat)) (now : Nat) (text : String)
    (at_users : Option (List String)) (at_all : Bool) (t : Transport) :
    SendResult × Payload :=
  send_message secret now
    [("msg_type", JVal.jstr "text"),
     ("content", JVal.jobj [("text", JVal.jstr (composeText text at_users at_all))])] t

/-- Python `FeishuRobotSender.send_card_message`. -/
def send_card_message (secret : Option (List Nat)) (now : Nat) (card : JVal)
    (t : Transport) : SendResult × Payload :=
  send_message secret now
    [("msg_type", JVal.jstr "interactive"), ("card", card)] t

/-- Python `feishubot_demo.FeishuRobotSender.send_post_message`. -/
def send_post_message (secret : Option (List Nat)) (now : Nat) (title : String)
    (content : JVal) (language : String) (t : Transport) : SendResult × Payload :=
  send_message secret now
    [("msg_type", JVal.jstr "post"),
     ("content", JVal.jobj
       [("post", JVal.jobj
         [(language, JVal.jobj [("title", JVal.jstr title), ("content", content)])])])] t

/-- The `content.text` field of a payload, when present. -/
def textBody (p : Payload) : Option String :=
  match getKey p "content" with
  | some (JVal.jobj fields) =>
    match getKey fields "text" with
    | some (JVal.jstr s) => some s
    | _ => none
  | _ => none

/-! ## Feed poller (`get_new_notifications` in `latest_paper_bot.py`)

`feedparser` entries are modelled as records; `published_parsed` is already a
UTC instant, modelled as an `Int` of seconds.  `entry.get('id', entry.link)`
falls back to the link only when the `id` key is absent. -/

/-- A parsed feed entry. -/
structure Entry where
  id : Option String
  link : String
  title : String
  summary : String
  published : Int
deriving DecidableEq

/-- Python `entry.get('id', entry.link)`. -/
def entryId (e : Entry) : String := e.id.getD e.link

/-- The dict appended to `new_notifications` for an included entry. -/
structure Notification where
  title : String
  content : String
  published : Int
  id : String
deriving DecidableEq

/-- Python `get_new_notifications(rss_url, last_checked, sent_entries, ...)`,
applied to the already-parsed `feed.entries`.  The `sent_entries` set
(modelled as a list) is threaded through each loop iteration exactly as the
code touches it — the body only performs the membership test
`entry_id in sent_entries` — and is returned alongside the result, so the
final state of the caller's set is observable. -/
def get_new_notifications : List Entry → Int → List String → List Notification × List String
  | [], _, sent_entries => ([], sent_entries)
  | entry :: rest, last_checked, sent_entries =>
    let entry_id := entryId entry
    if entry_id ∈ sent_entries then
      get_new_notifications rest last_checked sent_entries
    else
      let published_time := entry.published
      let res := get_new_notifications rest last_checked sent_entries
      if last_checked < published_time then
        ({ title := entry.title, content := entry.summary,
           published := published_time, id := entry_id } :: res.1, res.2)
      else
        res

/-! ## The polling loop (`main` in `latest_paper_bot.py`) -/

/-- State of the polling loop: the watermark and the session sent-id set. -/
structure PollState where
  last_checked : Int
  sent_entries : List String
deriving DecidableEq

/-- Python `set.add` on the sent-id set (no-op when already present). -/
def insertId (s : List String) (x : String) : List String :=
  if x ∈ s then s else s ++ [x]

/-- One iteration of the `while True` body of `main`.  `fetch` is the parsed
feed entry list, `none` when anything inside the `try` raised (the `except`
branch only logs); `now` is the value of `datetime.now(pytz.UTC)` read at the
end of the iteration.  Returns the notifications passed to
`robot.send_card_message`, in order, and the updated state: each delivered
notification's id is added to `sent_entries` right after its send — the send
result is only logged, and `_send_message` never raises, so the id is added
regardless of delivery outcome — and `last_checked` is set to `now`
unconditionally after the `try`/`except`. -/
def mainCycle (fetch : Option (List Entry)) (now : Int) (st : PollState) :
    List Notification × PollState :=
  match fetch with
  | none => ([], { st with last_checked := now })
  | some entries =>
    let new_notifications :=
      (get_new_notifications entries st.last_checked st.sent_entries).1
    let sent2 := new_notifications.foldl (fun s n => insertId s n.id) st.sent_entries
    (new_notifications, { last_checked := now, sent_entries := sent2 })

/-- The polling loop run over a finite prefix of cycles, each given by its
fetch outcome and its end-of-iteration clock reading.  Returns all delivered
notifications in order and the final state. -/
def mainLoop : List (Option (List Entry) × Int) → PollState → List Notification × PollState
  | [], st => ([], st)
  | (fetch, now) :: rest, st =>
    let c := mainCycle fetch now st
    let r := mainLoop rest c.2
    (c.1 ++ r.1, r.2)

/-- The value of `last_checked` observed after each successive iteration. -/
def watermarkTrace : List (Option (List Entry) × Int) → PollState → List Int
  | [], _ => []
  | (fetch, now) :: rest, st =>
    let st1 := (mainCycle fetch now st).2
    st1.last_checked :: watermarkTrace rest st1

/-! ## Helper lemmas -/

/-- Unfolding equation for `get_new_notifications` on a cons cell. -/
theorem gnn_cons (e : Entry) (rest : List Entry) (t : Int) (sent : List String) :
    get_new_notifications (e :: rest) t sent =
      if entryId e ∈ sent then get_new_notifications rest t sent
      else if t < e.published then
        ({ title := e.title, content := e.summary, published := e.published, id := entryId e }
           :: (get_new_notifications rest t sent).1, (get_new_notifications rest t sent).2)
      else get_new_notifications rest t sent := rfl

/-- Every produced notification is strictly newer than the watermark. -/
theorem gnn_published {entries : List Entry} {t : Int} {sent : List String}
    {n : Notification} (hn : n ∈ (get_new_notifications entries t sent).1) :
    t < n.published := by
  induction entries with
  | nil => simp [get_new_notifications] at hn
  | cons e rest ih =>
    rw [gnn_cons] at hn
    by_cases h : entryId e ∈ sent
    · rw [if_pos h] at hn
      exact ih hn
    · rw [if_neg h] at hn
      by_cases hp : t < e.published
      · rw [if_pos hp] at hn
        rcases List.mem_cons.mp hn with rfl | hn2
        · exact hp
        · exact ih hn2
      · rw [if_neg hp] at hn
        exact ih hn

/-- No produced notification carries an id that was already in the sent set. -/
theorem gnn_id_not_sent {entries : List Entry} {t : Int} {sent : List String}
    {n : Notification} (hn : n ∈ (get_new_notifications entries t sent).1) :
    n.id ∉ sent := by
  induction entries with
  | nil => simp [get_new_notifications] at hn
  | cons e rest ih =>
    rw [gnn_cons] at hn
    by_cases h : entryId e ∈ sent
    · rw [if_pos h] at hn
      exact ih hn
    · rw [if_neg h] at hn
      by_cases hp : t < e.published
      · rw [if_pos hp] at hn
        rcases List.mem_cons.mp hn with rfl | hn2
        · exact h
        · exact ih hn2
      · rw [if_neg hp] at hn
        exact ih hn

/-- The produced ids are a sublist of the derived ids of the feed, in order. -/
theorem gnn_ids_sublist (entries : List Entry) (t : Int) (sent : List String) :
    ((get_new_notifications entries t sent).1.map (fun n => n.id)).Sublist
      (entries.map entryId) := by
  induction entries with
  | nil => simp [get_new_notifications]
  | cons e rest ih =>
    rw [gnn_cons]
    by_cases h : entryId e ∈ sent
    · rw [if_pos h]
      exact List.Sublist.cons (entryId e) ih
    · rw [if_neg h]
      by_cases hp : t < e.published
      · rw [if_pos hp]
        simpa using List.Sublist.cons₂ (entryId e) ih
      · rw [if_neg hp]
        exact List.Sublist.cons (entryId e) ih

/-- Members of a sent set survive a `set.add`. -/
theorem mem_insertId_of_mem {s : List String} {x a : String} (h : a ∈ s) :
    a ∈ insertId s x := by
  unfold insertId
  split
  · exact h
  · exact List.mem_append_left _ h

/-- Adding an id with `set.add` makes it a member. -/
theorem mem_insertId_self (s : List String) (x : String) : x ∈ insertId s x := by
  unfold insertId
  split
  · assumption
  · simp

/-- Members of the sent set survive the per-cycle marking fold. -/
theorem foldl_insertId_of_mem {l : List Notification} {s : List String} {a : String}
    (h : a ∈ s) : a ∈ l.foldl (fun s n => insertId s n.id) s := by
  induction l generalizing s with
  | nil => exact h
  | cons hd tl ih =>
    rw [List.foldl_cons]
    exact ih (mem_insertId_of_mem h)

/-- The marking fold adds every delivered id to the sent set. -/
theorem foldl_insertId_mem {l : List Notification} {s : List String} {n : Notification}
    (h : n ∈ l) : n.id ∈ l.foldl (fun s n => insertId s n.id) s := by
  induction l generalizing s with
  | nil => cases h
  | cons hd tl ih =>
    rw [List.foldl_cons]
    rcases List.mem_cons.mp h with rfl | h2
    · exact foldl_insertId_of_mem (mem_insertId_self s n.id)
    · exact ih h2

/-- After every iteration, the watermark equals that iteration's clock
reading, whether the fetch succeeded (`some`) or raised (`none`). -/
theorem mainCycle_last (fetch : Option (List Entry)) (now : Int) (st : PollState) :
    (mainCycle fetch now st).2.last_checked = now := by
  cases fetch <;> rfl

/-- A cycle never removes ids from the sent set. -/
theorem mainCycle_sent_mono {fetch : Option (List Entry)} {now : Int} {st : PollState}
    {a : String} (h : a ∈ st.sent_entries) :
    a ∈ (mainCycle fetch now st).2.sent_entries := by
  cases fetch with
  | none => exact h
  | some entries => exact foldl_insertId_of_mem h

/-- Every id delivered in a cycle is in the sent set the cycle leaves behind. -/
theorem mainCycle_delivered_sent {fetch : Option (List Entry)} {now : Int} {st : PollState}
    {n : Notification} (h : n ∈ (mainCycle fetch now st).1) :
    n.id ∈ (mainCycle fetch now st).2.sent_entries := by
  cases fetch with
  | none => cases h
  | some entries => exact foldl_insertId_mem h

/-- Every id delivered in a cycle was not in the sent set the cycle started from. -/
theorem mainCycle_delivered_fresh {fetch : Option (List Entry)} {now : Int} {st : PollState}
    {n : Notification} (h : n ∈ (mainCycle fetch now st).1) :
    n.id ∉ st.sent_entries := by
  cases fetch with
  | none => cases h
  | some entries => exact gnn_id_not_sent h

/-- When a cycle's fetch lists each derived id at most once, that cycle's
delivered ids are distinct. -/
theorem mainCycle_ids_nodup {fetch : Option (List Entry)} {now : Int} {st : PollState}
    (hnd : ((fetch.getD []).map entryId).Nodup) :
    ((mainCycle fetch now st).1.map (fun n => n.id)).Nodup := by
  cases fetch with
  | none => simp [mainCycle]
  | some entries =>
    exact List.Nodup.sublist (gnn_ids_sublist entries st.last_checked st.sent_entries) hnd

/-- The loop never removes ids from the sent set. -/
theorem mainLoop_sent_mono {cs : List (Option (List Entry) × Int)} {st : PollState}
    {a : String} (h : a ∈ st.sent_entries) :
    a ∈ (mainLoop cs st).2.sent_entries := by
  induction cs generalizing st with
  | nil => exact h
  | cons c rest ih =>
    rcases c with ⟨fetch, now⟩
    exact ih (mainCycle_sent_mono h)

/-- Every id the loop delivers was absent from the starting sent set. -/
theorem mainLoop_delivered_fresh {cs : List (Option (List Entry) × Int)} {st : PollState}
    {n : Notification} (h : n ∈ (mainLoop cs st).1) :
    n.id ∉ st.sent_entries := by
  induction cs generalizing st with
  | nil => cases h
  | cons c rest ih =>
    rcases c with ⟨fetch, now⟩
    rcases List.mem_append.mp h with h1 | h2
    · exact mainCycle_delivered_fresh h1
    · intro hin
      exact ih h2 (mainCycle_sent_mono hin)

/-- The watermark trace records exactly the per-iteration clock readings. -/
theorem watermarkTrace_eq (cs : List (Option (List Entry) × Int)) (st : PollState) :
    watermarkTrace cs st = cs.map Prod.snd := by
  induction cs generalizing st with
  | nil => rfl
  | cons c rest ih =>
    rcases c with ⟨fetch, now⟩
    simp [watermarkTrace, mainCycle_last, ih]

/-- Setting a key makes `hasKey` hold at it. -/
theorem hasKey_setKey_self (p : Payload) (k : String) (v : JVal) :
    hasKey (setKey p k v) k = true := by
  induction p with
  | nil => simp [setKey, hasKey]
  | cons kv rest ih =>
    rcases kv with ⟨k1, v1⟩
    by_cases h : k1 = k
    · simp [setKey, hasKey, h]
    · simp [setKey, hasKey, h, ih]

/-- Setting a key leaves `hasKey` at every other key unchanged. -/
theorem hasKey_setKey_other (p : Payload) (k k2 : String) (v : JVal) (hne : k ≠ k2) :
    hasKey (setKey p k v) k2 = hasKey p k2 := by
  induction p with
  | nil => simp [setKey, hasKey, hne]
  | cons kv rest ih =>
    rcases kv with ⟨k1, v1⟩
    by_cases h : k1 = k
    · simp [setKey, hasKey, h, hne]
    · simp [setKey, hasKey, h, ih]

/-! ## Concrete fixtures for witnesses and counterexamples -/

/-- A concrete entry with a feed-provided id. -/
def entryA : Entry := { id := some "A", link := "L", title := "T", summary := "S", published := 10 }

/-- A concrete entry without a feed-provided id (the link is the derived id). -/
def entryB : Entry := { id := none, link := "B", title := "T2", summary := "S2", published := 10 }

/-- The notification record produced for `entryA`. -/
def notifA : Notification := { title := "T", content := "S", published := 10, id := "A" }

/-- The notification record produced for `entryB`. -/
def notifB : Notification := { title := "T2", content := "S2", published := 10, id := "B" }

/-- A concrete two-cycle schedule: one failed fetch, then one successful fetch. -/
def csW : List (Option (List Entry) × Int) := [(none, 5), (some [entryA], 7)]

/-- A concrete starting poll state. -/
def stW : PollState := { last_checked := 3, sent_entries := [] }

/-! ## The claims -/

/-- Claim C2: `get_new_notifications` includes an entry in its result only if the
entry's published time is strictly greater than the watermark; in particular a
notification with published time equal to `last_checked` never appears. -/
theorem c2_strictly_newer (entries : List Entry) (t : Int) (sent : List String)
    (n : Notification) (hn : n ∈ (get_new_notifications entries t sent).1) :
    t < n.published :=
  gnn_published hn

/-- Witness for claim C2 at a concrete feed. -/
theorem c2_strictly_newer_witness :
    notifA ∈ (get_new_notifications [entryA] 5 []).1 ∧ (5 : Int) < notifA.published :=
  ⟨by decide, c2_strictly_newer [entryA] 5 [] notifA (by decide)⟩

/-- Claim C3: An entry whose derived id is already in `sent_entries` is excluded
from the result of `get_new_notifications`, even when its published time is
strictly greater than the watermark: no produced notification carries that id. -/
theorem c3_sent_id_excluded (entries : List Entry) (t : Int) (sent : List String)
    (e : Entry) (he : e ∈ entries) (hid : entryId e ∈ sent) (hpub : t < e.published)
    (n : Notification) (hn : n ∈ (get_new_notifications entries t sent).1) :
    n.id ≠ entryId e := by
  intro heq
  apply gnn_id_not_sent hn
  rw [heq]
  exact hid

/-- Witness for claim C3: `entryA` (id `"A"`, newer than the watermark) is in the
feed and `"A"` is in the sent set; the only produced notification is `entryB`'s. -/
theorem c3_sent_id_excluded_witness :
    entryA ∈ [entryA, entryB] ∧ entryId entryA ∈ ["A"] ∧ (0 : Int) < entryA.published ∧
    notifB ∈ (get_new_notifications [entryA, entryB] 0 ["A"]).1 ∧
    notifB.id ≠ entryId entryA :=
  ⟨by decide, by decide, by decide, by decide,
   c3_sent_id_excluded [entryA, entryB] 0 ["A"] entryA (by decide) (by decide) (by decide)
     notifB (by decide)⟩

/-- Claim C4, counterexample: A single fetch that returns the same id twice is
delivered twice: neither `get_new_notifications` (which never consults its own
output) nor the delivery loop in `main` (which adds the id to `sent_entries`
but does not re-check membership inside one batch) deduplicates within a
fetch, so the claim as stated is false. -/
theorem c4_counterexample :
    ((mainLoop [(some [entryA, entryA], 100)]
        { last_checked := 0, sent_entries := [] }).1.map (fun n => n.id)).count "A" = 2 := by
  decide

/-- Claim C4, amended: Provided every single fetch lists each derived id at most
once, every entry id is delivered at most once per continuous run: the ids
passed to `send_card_message` over the whole run are pairwise distinct. -/
theorem c4_amended (cs : List (Option (List Entry) × Int)) (st : PollState)
    (hnd : ∀ c ∈ cs, ((c.1.getD []).map entryId).Nodup) :
    ((mainLoop cs st).1.map (fun n => n.id)).Nodup := by
  induction cs generalizing st with
  | nil => simp [mainLoop]
  | cons c rest ih =>
    rcases c with ⟨fetch, now⟩
    show (((mainCycle fetch now st).1 ++
        (mainLoop rest (mainCycle fetch now st).2).1).map (fun n => n.id)).Nodup
    rw [List.map_append, List.nodup_append]
    refine ⟨mainCycle_ids_nodup (hnd (fetch, now) (List.mem_cons_self _ _)), ?_, ?_⟩
    · exact ih _ (fun c hc => hnd c (List.mem_cons_of_mem _ hc))
    · intro a ha1 ha2
      rcases List.mem_map.mp ha1 with ⟨n, hn, rfl⟩
      rcases List.mem_map.mp ha2 with ⟨m, hm, hma⟩
      apply mainLoop_delivered_fresh hm
      rw [hma]
      exact mainCycle_delivered_sent hn

/-- Witness for claim C4 (amended) on a two-cycle run whose fetches have
duplicate-free ids (the second fetch repeats `entryA`, already sent). -/
theorem c4_amended_witness :
    (∀ c ∈ [((some [entryA] : Option (List Entry)), (100 : Int)), (some [entryA, entryB], 200)],
        ((c.1.getD []).map entryId).Nodup) ∧
    ((mainLoop [(some [entryA], 100), (some [entryA, entryB], 200)]
        { last_checked := 0, sent_entries := [] }).1.map (fun n => n.id)).Nodup :=
  ⟨by decide, c4_amended _ _ (by decide)⟩

/-- Claim C5, counterexample: "Non-2xx status" is too strong: `raise_for_status`
only raises for statuses in `[400, 600)`, so a final `304` response whose body
parses as JSON is returned as a success value, with no `error` key. -/
theorem c5_counterexample :
    (send_message none 0 [("msg_type", JVal.jstr "text")]
        (Transport.resp 304 (some (JVal.jobj [])) "hd" "jd")).1 =
      SendResult.ok (JVal.jobj []) := rfl

/-- Claim C5, amended: If the post raises a transport-level `RequestException`,
or the response status is 4xx/5xx, `_send_message` returns the record with the
`error` description and the attempted (signed) payload; exceptions are
modelled as distinguished return values and the embedding returns a value in
every case, so nothing escapes the call. -/
theorem c5_amended (secret : Option (List Nat)) (now : Nat) (payload : Payload)
    (t : Transport)
    (h : (∃ d, t = Transport.exn d) ∨
         ∃ s b hd jd, t = Transport.resp s b hd jd ∧ 400 ≤ s ∧ s < 600) :
    ∃ e, send_message secret now payload t =
      (SendResult.fail e (sentBody secret now payload), sentBody secret now payload) := by
  rcases h with ⟨d, rfl⟩ | ⟨s, b, hd, jd, rfl, h4, h6⟩
  · exact ⟨d, rfl⟩
  · refine ⟨hd, ?_⟩
    show (if 400 ≤ s ∧ s < 600 then _ else _) = _
    rw [if_pos ⟨h4, h6⟩]

/-- Witness for claim C5 (amended) at a concrete transport failure. -/
theorem c5_amended_witness :
    ((∃ d, Transport.exn "boom" = Transport.exn d) ∨
      ∃ s b hd jd, Transport.exn "boom" = Transport.resp s b hd jd ∧ 400 ≤ s ∧ s < 600) ∧
    ∃ e, send_message none 0 [("msg_type", JVal.jstr "text")] (Transport.exn "boom") =
      (SendResult.fail e (sentBody none 0 [("msg_type", JVal.jstr "text")]),
       sentBody none 0 [("msg_type", JVal.jstr "text")]) :=
  ⟨Or.inl ⟨"boom", rfl⟩,
   c5_amended none 0 [("msg_type", JVal.jstr "text")] (Transport.exn "boom")
     (Or.inl ⟨"boom", rfl⟩)⟩

/-- Claim C6: With no secret configured, `_generate_sign` returns the empty dict
and `payload.update({})` adds nothing: for every payload that does not itself
carry them, the body `_send_message` posts contains neither a `timestamp` nor
a `sign` field. -/
theorem c6_no_secret_no_sign_fields (now : Nat) (payload : Payload)
    (h1 : hasKey payload "timestamp" = false) (h2 : hasKey payload "sign" = false) :
    hasKey (sentBody none now payload) "timestamp" = false ∧
    hasKey (sentBody none now payload) "sign" = false :=
  ⟨h1, h2⟩

/-- Witness for claim C6 at the payload `send_text_message` builds. -/
theorem c6_no_secret_no_sign_fields_witness :
    hasKey [("msg_type", JVal.jstr "text"),
            ("content", JVal.jobj [("text", JVal.jstr "hi")])] "timestamp" = false ∧
    hasKey [("msg_type", JVal.jstr "text"),
            ("content", JVal.jobj [("text", JVal.jstr "hi")])] "sign" = false ∧
    (hasKey (sentBody none 0 [("msg_type", JVal.jstr "text"),
              ("content", JVal.jobj [("text", JVal.jstr "hi")])]) "timestamp" = false ∧
     hasKey (sentBody none 0 [("msg_type", JVal.jstr "text"),
              ("content", JVal.jobj [("text", JVal.jstr "hi")])]) "sign" = false) :=
  ⟨by decide, by decide, c6_no_secret_no_sign_fields 0 _ (by decide) (by decide)⟩

/-- Claim C7: `send_text_message("hi", at_users=["u1","u2"], at_all=true)` places
in the payload a text body that starts with the all-mention token, then the
per-user tokens space-joined in list order, then the original text. -/
theorem c7_mention_composition :
    ∃ rest,
      textBody (send_text_message none 0 "hi" (some ["u1", "u2"]) true
          (Transport.exn "e")).2 =
        some ("<at user_id=\"all\"></at> <at user_id=\"u1\"></at> <at user_id=\"u2\"></at> hi"
          ++ rest) :=
  ⟨"", by decide⟩

/-- Claim C8: `get_new_notifications` returns the sent-id set it was given
unchanged: the loop body only performs membership tests on it. -/
theorem c8_sent_set_unchanged (entries : List Entry) (t : Int) (sent : List String) :
    (get_new_notifications entries t sent).2 = sent := by
  induction entries with
  | nil => rfl
  | cons e rest ih =>
    rw [gnn_cons]
    by_cases h : entryId e ∈ sent
    · rw [if_pos h]
      exact ih
    · rw [if_neg h]
      by_cases hp : t < e.published
      · rw [if_pos hp]
        exact ih
      · rw [if_neg hp]
        exact ih

/-- Claim C9: After every iteration — fetch failure (`none`) included — the
watermark equals that iteration's clock reading; given that the clock readings
never run backwards (and start no earlier than the initial watermark), the
watermark never moves backward across iterations. -/
theorem c9_watermark_forward (cs : List (Option (List Entry) × Int)) (st : PollState)
    (h : List.Chain (fun a b : Int => a ≤ b) st.last_checked (cs.map Prod.snd)) :
    watermarkTrace cs st = cs.map Prod.snd ∧
    List.Chain (fun a b : Int => a ≤ b) st.last_checked (watermarkTrace cs st) :=
  ⟨watermarkTrace_eq cs st, by rw [watermarkTrace_eq]; exact h⟩

/-- Witness for claim C9 on a concrete two-cycle schedule. -/
theorem c9_watermark_forward_witness :
    List.Chain (fun a b : Int => a ≤ b) stW.last_checked (csW.map Prod.snd) ∧
    (watermarkTrace csW stW = csW.map Prod.snd ∧
     List.Chain (fun a b : Int => a ≤ b) stW.last_checked (watermarkTrace csW stW)) :=
  ⟨List.Chain.cons (by decide) (List.Chain.cons (by decide) List.Chain.nil),
   c9_watermark_forward csW stW
     (List.Chain.cons (by decide) (List.Chain.cons (by decide) List.Chain.nil))⟩

/-! ## Validation of the crypto embedding against published test vectors -/

set_option maxRecDepth 100000
set_option maxHeartbeats 1000000

/-- FIPS 180-4 test vector: SHA-256 of the empty byte string. -/
theorem sha256_empty_vector :
    sha256 [] =
      [227, 176, 196, 66, 152, 252, 28, 20, 154, 251, 244, 200, 153, 111,
       185, 36, 39, 174, 65, 228, 100, 155, 147, 76, 164, 149, 153, 27,
       120, 82, 184, 85] := by decide

/-- FIPS 180-4 test vector: SHA-256 of `"abc"`. -/
theorem sha256_abc_vector :
    sha256 [97, 98, 99] =
      [186, 120, 22, 191, 143, 1, 207, 234, 65, 65, 64, 222, 93, 174,
       34, 35, 176, 3, 97, 163, 150, 23, 122, 156, 180, 16, 255, 97,
       242, 0, 21, 173] := by decide

/-- RFC 4231 test case 1: HMAC-SHA256 with key `11 × 20` and data `"Hi There"`. -/
theorem hmacSha256_rfc4231_vector :
    hmacSha256 (List.replicate 20 11) [72, 105, 32, 84, 104, 101, 114, 101] =
      [176, 52, 76, 97, 216, 219, 56, 83, 92, 168, 175, 206, 175, 11,
       241, 43, 136, 29, 194, 0, 201, 131, 61, 167, 38, 233, 55, 108,
       46, 50, 207, 247] := by decide

/-- RFC 4648 base64 vectors, covering all three padding shapes. -/
theorem base64_vectors :
    base64Encode [77, 97, 110] = "TWFu" ∧ base64Encode [77, 97] = "TWE=" ∧
    base64Encode [77] = "TQ==" := by decide

/-! ## Claims about the signature (C1) and payload mutation (C10) -/

/-- The `sign` field of a signature dict, as a string. -/
def signField (p : Payload) : Option String :=
  match getKey p "sign" with
  | some (JVal.jstr s) => some s
  | _ => none

/-- Modelled from the spec's words, for the refinement comparison of claim C1
only: the signature with the HMAC *data* equal to the key material
`str(t) + "\n" + secret` itself, rather than the empty byte string. -/
def claimedSign (secret : List Nat) (now : Nat) : String :=
  base64Encode (hmacSha256 (decimalBytes now ++ [10] ++ secret)
    (decimalBytes now ++ [10] ++ secret))

/-- Claim C1, counterexample: At timestamp `5` and secret `"a"`, the sign the
code produces — `hmac.new(string_to_sign.encode("utf-8"), digestmod=sha256)`
passes no `msg`, so the HMAC data is the *empty* byte string — differs from
the claim's `HMAC(key = message, data = message)` formula. -/
theorem c1_sign_counterexample :
    signField (generate_sign (some [97]) 5) ≠ some (claimedSign [97] 5) := by decide

/-- Claim C1, amended: For every configured (non-empty) secret and timestamp,
`_generate_sign` returns exactly the two string fields: `timestamp`, the
decimal string of `t`, and `sign`, the base64 of
`HMAC-SHA256(key = utf8(str(t) + "\n" + secret), data = "")`. -/
theorem c1_sign_amended (now : Nat) (s : List Nat) (hs : s ≠ []) :
    generate_sign (some s) now =
      [("timestamp", JVal.jstr (natStr now)),
       ("sign", JVal.jstr (base64Encode (hmacSha256 (decimalBytes now ++ [10] ++ s) [])))] := by
  simp [generate_sign, hs]

/-- Witness for claim C1 (amended) at timestamp `5` and secret `"a"`. -/
theorem c1_sign_amended_witness :
    ([97] : List Nat) ≠ [] ∧
    generate_sign (some [97]) 5 =
      [("timestamp", JVal.jstr (natStr 5)),
       ("sign", JVal.jstr (base64Encode (hmacSha256 (decimalBytes 5 ++ [10] ++ [97]) [])))] :=
  ⟨by decide, c1_sign_amended 5 [97] (by decide)⟩

/-- Claim C10: With a secret configured, `_send_message` updates the caller's
payload dict in place with the `timestamp` and `sign` fields, so the dict the
caller passed ends up carrying both fields, and the `payload` field of the
error result returned on a transport failure is that updated dict — not the
payload as originally constructed. -/
theorem c10_payload_mutated (s : List Nat) (hs : s ≠ []) (now : Nat) (p : Payload)
    (d : String) (h1 : hasKey p "timestamp" = false) :
    (send_message (some s) now p (Transport.exn d)).2 =
      dictUpdate p (generate_sign (some s) now) ∧
    hasKey (send_message (some s) now p (Transport.exn d)).2 "timestamp" = true ∧
    hasKey (send_message (some s) now p (Transport.exn d)).2 "sign" = true ∧
    (send_message (some s) now p (Transport.exn d)).1 =
      SendResult.fail d ((send_message (some s) now p (Transport.exn d)).2) ∧
    (send_message (some s) now p (Transport.exn d)).2 ≠ p := by
  have hgen : generate_sign (some s) now =
      [("timestamp", JVal.jstr (natStr now)),
       ("sign", JVal.jstr (base64Encode (hmacSha256 (decimalBytes now ++ [10] ++ s) [])))] := by
    simp [generate_sign, hs]
  have hfin : (send_message (some s) now p (Transport.exn d)).2 =
      setKey (setKey p "timestamp" (JVal.jstr (natStr now))) "sign"
        (JVal.jstr (base64Encode (hmacSha256 (decimalBytes now ++ [10] ++ s) []))) := by
    show sentBody (some s) now p = _
    rw [sentBody, hgen]
    rfl
  have hts : hasKey (send_message (some s) now p (Transport.exn d)).2 "timestamp" = true := by
    rw [hfin, hasKey_setKey_other _ _ _ _ (by decide)]
    exact hasKey_setKey_self p "timestamp" (JVal.jstr (natStr now))
  refine ⟨rfl, hts, ?_, rfl, ?_⟩
  · rw [hfin]
    exact hasKey_setKey_self _ "sign" _
  · intro heq
    rw [heq, h1] at hts
    cases hts

/-- Witness for claim C10 at secret `"a"`, timestamp `5` and the card payload
skeleton. -/
theorem c10_payload_mutated_witness :
    ([97] : List Nat) ≠ [] ∧
    hasKey [("msg_type", JVal.jstr "interactive")] "timestamp" = false ∧
    ((send_message (some [97]) 5 [("msg_type", JVal.jstr "interactive")]
        (Transport.exn "boom")).2 =
      dictUpdate [("msg_type", JVal.jstr "interactive")] (generate_sign (some [97]) 5) ∧
    hasKey (send_message (some [97]) 5 [("msg_type", JVal.jstr "interactive")]
        (Transport.exn "boom")).2 "timestamp" = true ∧
    hasKey (send_message (some [97]) 5 [("msg_type", JVal.jstr "interactive")]
        (Transport.exn "boom")).2 "sign" = true ∧
    (send_message (some [97]) 5 [("msg_type", JVal.jstr "interactive")]
        (Transport.exn "boom")).1 =
      SendResult.fail "boom"
        ((send_message (some [97]) 5 [("msg_type", JVal.jstr "interactive")]
          (Transport.exn "boom")).2) ∧
    (send_message (some [97]) 5 [("msg_type", JVal.jstr "interactive")]
        (Transport.exn "boom")).2 ≠ [("msg_type", JVal.jstr "interactive")]) :=
  ⟨by decide, by decide,
   c10_payload_mutated [97] (by decide) 5 [("msg_type", JVal.jstr "interactive")] "boom"
     (by decide)⟩
